import Mathlib

/-!
Shallow embedding of the interactive yield-curve / PNL calculator of the
Rates_Dashboard repository (src/Frontend/frontend/src/App.jsx), together
with theorems settling the specification claims about it.

JavaScript double-precision numbers are modeled as exact rationals (ℚ).
All quantities involved are small rationals with tiny denominators, and the
deviations at issue in the numerical claims (≈ 1 and ≈ 10 currency units)
are many orders of magnitude above double rounding error (≈ 1e-9 here), so
the exact-rational model decides every claim faithfully.  In ℚ, `x / 0 = 0`
whereas a JS division by zero yields `Infinity`; the only place this could
matter is a yield of exactly -100 percent, which the spec itself rules out
of the domain.
-/

namespace RatesDashboard

/-- One point of the fetched yield curve: `{ maturity: string, yield: number }`
(spec: `YieldCurvePoint`). -/
structure CurveEntry where
  maturity : String
  yield : ℚ
  deriving DecidableEq

/-- `calculateModifiedDuration` (App.jsx lines 537-539):
`macaulayDuration / (1 + yieldPercent / 100)`. -/
def calculateModifiedDuration (macaulayDuration yieldPercent : ℚ) : ℚ :=
  macaulayDuration / (1 + yieldPercent / 100)

/-- `calculateDV01` (App.jsx lines 543-548):
`modifiedDuration * 0.0001 * faceValue`. -/
def calculateDV01 (faceValue macaulayDuration yieldPercent : ℚ) : ℚ :=
  calculateModifiedDuration macaulayDuration yieldPercent * 0.0001 * faceValue

/-- `calculatePNL` (App.jsx lines 553-570): averaged-DV01 PNL estimate. -/
def calculatePNL (originalYield newYield macaulayDuration faceValue : ℚ) : ℚ :=
  let yieldChangeBps := (newYield - originalYield) * 100
  let originalDV01 := calculateDV01 faceValue macaulayDuration originalYield
  let newDV01 := calculateDV01 faceValue macaulayDuration newYield
  let avgDV01 := (originalDV01 + newDV01) / 2
  let pnl := -avgDV01 * yieldChangeBps
  pnl

/-- `getMacaulayDuration` (App.jsx lines 574-584): lookup in the static
`maturityMap`, with `|| 8.0` as the default.  None of the table values is
falsy, so the `||` default fires exactly on the labels missing from the
table. -/
def getMacaulayDuration (maturity : String) : ℚ :=
  if maturity = "1Y" then 1.0
  else if maturity = "2Y" then 1.9
  else if maturity = "5Y" then 4.5
  else if maturity = "7Y" then 6.2
  else if maturity = "10Y" then 8.0
  else if maturity = "30Y" then 18.0
  else 8.0

/-- The user-adjusted yield overlay `interactiveYields`: a JS object mapping
maturity labels to yields (spec: `CurrentYieldOverlay`).  Modeled as a
function to `Option ℚ`; `none` is JS `undefined`. -/
abbrev Overlay := String → Option ℚ

/-- The `ratesData` response object, restricted to the field the calculator
reads (`yield_curve`, which may be absent/null). -/
structure RatesData where
  yield_curve : Option (List CurveEntry)
  deriving DecidableEq

/-- `getPNL` (App.jsx lines 587-629).  Each early `return 0` of the source is
one `none` branch, in the source's order: missing `ratesData`, missing
`interactiveYields`, missing `ratesData.yield_curve`, maturity not found in
the curve (`find`), maturity absent from the overlay (`=== undefined`).
Otherwise the PNL for a $10,000,000 position is computed. -/
def getPNL (ratesData : Option RatesData) (interactiveYields : Option Overlay)
    (selectedBond : String) : ℚ :=
  match ratesData with
  | none => 0
  | some rd =>
    match interactiveYields with
    | none => 0
    | some iy =>
      match rd.yield_curve with
      | none => 0
      | some curve =>
        match curve.find? (fun item => item.maturity == selectedBond) with
        | none => 0
        | some originalBond =>
          match iy selectedBond with
          | none => 0
          | some newYield =>
            calculatePNL originalBond.yield newYield
              (getMacaulayDuration selectedBond) 10000000

/-- The spec's `dv01` operation, written exactly as the spec states it:
`(d / (1 + y/100)) * 0.0001 * f`.  (Spec-side formula, for the refinement
claim C1.) -/
def dv01_spec (f d y : ℚ) : ℚ :=
  (d / (1 + y / 100)) * 0.0001 * f

/-- The spec's `estimatePNL`, written exactly as claim C1 states it:
`-((dv01Start + dv01End) / 2) * ((newYield - originalYield) * 100)` with no
second-derivative term.  (Spec-side formula, for the refinement claim C1.) -/
def estimatePNL_spec (originalYield newYield d f : ℚ) : ℚ :=
  -((dv01_spec f d originalYield + dv01_spec f d newYield) / 2) *
    ((newYield - originalYield) * 100)

/-- Model of the JS test `item.maturity.endsWith('Y')` used by the overlay
initialization (App.jsx line 691) and by `onReset` (line 1149): the string
ends with the single character `Y`. -/
def endsWithY (s : String) : Bool :=
  s.data.getLast? == some 'Y'

/-- JS object-spread update `{...prev, [maturity]: newYield}` on the overlay
(`onYieldChange`, App.jsx lines 1140-1145): overwrite one key, keep all
other keys. -/
def overlayInsert (o : Overlay) (m : String) (y : ℚ) : Overlay :=
  fun key => if key = m then some y else o key

/-- The `forEach` loop `yields[item.maturity] = item.yield` run over a list
of curve entries, starting from the overlay `o`. -/
def insertAll (o : Overlay) (l : List CurveEntry) : Overlay :=
  l.foldl (fun acc item => overlayInsert acc item.maturity item.yield) o

/-- The overlay built by `onReset` (App.jsx lines 1146-1154): start from the
empty object `{}`, keep only maturities ending in `Y`, copy their yields. -/
def buildYields (curve : List CurveEntry) : Overlay :=
  insertAll (fun _ => none) (curve.filter (fun item => endsWithY item.maturity))

/-- The overlay built at initialization (App.jsx lines 688-696).  It differs
from `onReset` only in the extra truthiness test `item.maturity && ...`,
modeled as a non-emptiness test (a JS string is falsy exactly when empty). -/
def initYields (curve : List CurveEntry) : Overlay :=
  insertAll (fun _ => none)
    (curve.filter (fun item => !(item.maturity == "") && endsWithY item.maturity))

/-- The React state the interactive calculator touches: the fetched
`ratesData` and the `interactiveYields` overlay (both start as `null`). -/
structure AppState where
  ratesData : Option RatesData
  interactiveYields : Option Overlay

/-- The operations of the interactive calculator that write state: a drag or
text-input yield change for one maturity, and the reset button. -/
inductive Op where
  | yieldChange (maturity : String) (newYield : ℚ)
  | reset

/-- JS spread of a possibly-null object: `{...null}` is `{}`. -/
def jsSpread : Option Overlay → Overlay
  | some o => o
  | none => fun _ => none

/-- One step of the calculator's state.  `yieldChange` is
`setInteractiveYields(prev => ({...prev, [maturity]: newYield}))`
(App.jsx lines 1140-1145); `reset` rebuilds the overlay from
`ratesData.yield_curve` (lines 1146-1154; the reset button is only rendered
when `ratesData` and its `yield_curve` are present, so the missing-data
branches keep the state unchanged). -/
def applyOp (s : AppState) : Op → AppState
  | Op.yieldChange m y =>
      { s with interactiveYields := some (overlayInsert (jsSpread s.interactiveYields) m y) }
  | Op.reset =>
      match s.ratesData with
      | some rd =>
          match rd.yield_curve with
          | some curve => { s with interactiveYields := some (buildYields curve) }
          | none => s
      | none => s

/-- A whole interaction session: a sequence of drags and resets. -/
def applyOps (s : AppState) (ops : List Op) : AppState :=
  ops.foldl applyOp s

/-- `dv01_2Y` of the bear-steepener block (App.jsx line 1195):
`1.9 * 0.0001 * 10_000_000`. -/
def dv01_2Y : ℚ := 1.9 * 0.0001 * 10000000

/-- `dv01_10Y` of the bear-steepener block (App.jsx line 1196):
`8.0 * 0.0001 * 10_000_000`. -/
def dv01_10Y : ℚ := 8.0 * 0.0001 * 10000000

/-- `long2YNotional` (App.jsx line 1200): size the 2Y leg so its DV01
matches the 10Y leg's. -/
def long2YNotional : ℚ := (10000000 * dv01_10Y) / dv01_2Y

/-- `pnl_10Y_leg` (App.jsx line 1207), a function of the 10Y yield change in
basis points: `-yield10YChange * (dv01_10Y / 100)`. -/
def pnl_10Y_leg (yield10YChange : ℚ) : ℚ :=
  -yield10YChange * (dv01_10Y / 100)

/-- `pnl_2Y_leg` (App.jsx line 1208), a function of the 2Y yield change in
basis points: `-yield2YChange * (dv01_2Y * long2YNotional / 10_000_000 / 100)`. -/
def pnl_2Y_leg (yield2YChange : ℚ) : ℚ :=
  -yield2YChange * (dv01_2Y * long2YNotional / 10000000 / 100)

/-- `totalPnl` of the bear-steepener block (App.jsx lines 1186-1209), as a
function of the current and original 2Y and 10Y yields (in percent): both
yield changes are converted to basis points (lines 1203-1204) and the two
leg PNLs are summed. -/
def steepenerTotalPnl (yield2Y yield10Y original2Y original10Y : ℚ) : ℚ :=
  let yield2YChange := (yield2Y - original2Y) * 100
  let yield10YChange := (yield10Y - original10Y) * 100
  pnl_10Y_leg yield10YChange + pnl_2Y_leg yield2YChange

/-- Unfolding lemma shared by several claim proofs. -/
lemma calculatePNL_unfold (o n d f : ℚ) :
    calculatePNL o n d f =
      -((calculateDV01 f d o + calculateDV01 f d n) / 2) * ((n - o) * 100) := rfl

example : calculateDV01 10000000 8 (405/100) = 16000000/2081 := by
  norm_num [calculateDV01, calculateModifiedDuration]

/-- Positivity of the DV01 of a positive-duration, positive-notional position
at a yield above -100 percent (shared helper). -/
lemma calculateDV01_pos {f d y : ℚ} (hf : 0 < f) (hd : 0 < d) (hy : -100 < y) :
    0 < calculateDV01 f d y := by
  have hden : (0:ℚ) < 1 + y / 100 := by linarith
  have hmd : 0 < calculateModifiedDuration d y := div_pos hd hden
  have h4 : (0:ℚ) < 0.0001 := by norm_num
  show 0 < calculateModifiedDuration d y * 0.0001 * f
  exact mul_pos (mul_pos hmd h4) hf

/-- C1: `calculatePNL` (the source's `estimatePNL`) equals
`-((dv01Start + dv01End) / 2) * ((newYield - originalYield) * 100)` with
`dv01(f, d, y) = (d / (1 + y/100)) * 0.0001 * f`; the averaged start/end
DV01 is the whole formula — no second-derivative term appears. -/
theorem calculatePNL_eq_averaged_dv01_formula (originalYield newYield d f : ℚ) :
    calculatePNL originalYield newYield d f = estimatePNL_spec originalYield newYield d f := rfl

/-- C5: reversing the yield path exactly negates the PNL under exact
arithmetic, given the averaged-DV01 formula. -/
theorem calculatePNL_antisymm (y1 y2 d f : ℚ) :
    calculatePNL y1 y2 d f = -calculatePNL y2 y1 d f := by
  rw [calculatePNL_unfold, calculatePNL_unfold]
  ring

/-- Claim C6 counterexample: the claim quantifies over every duration, but at
duration 0 (and yield 1 > 0) the modified duration equals the duration
instead of being strictly smaller. -/
theorem modifiedDuration_zero_duration_cex :
    ¬ (calculateModifiedDuration 0 1 < 0) := by
  norm_num [calculateModifiedDuration]

/-- C6 (amended): for every positive duration d and every yield y > 0,
`calculateModifiedDuration d y < d`; and for every duration,
`calculateModifiedDuration d 0 = d`. -/
theorem modifiedDuration_lt_of_pos :
    (∀ d y : ℚ, 0 < d → 0 < y → calculateModifiedDuration d y < d) ∧
    (∀ d : ℚ, calculateModifiedDuration d 0 = d) := by
  constructor
  · intro d y hd hy
    have h1 : (1:ℚ) < 1 + y / 100 := by linarith
    calc calculateModifiedDuration d y = d / (1 + y / 100) := rfl
    _ < d := div_lt_self hd h1
  · intro d
    simp [calculateModifiedDuration]

/-- Claim C6 amended-theorem witness at duration 8, yield 4.05. -/
theorem modifiedDuration_lt_of_pos_witness :
    calculateModifiedDuration 8 (405/100) < 8 ∧ calculateModifiedDuration 8 0 = 8 :=
  ⟨modifiedDuration_lt_of_pos.1 8 (405/100) (by norm_num) (by norm_num),
   modifiedDuration_lt_of_pos.2 8⟩

/-- Claim C7 counterexample: the claim quantifies over every duration, but at
duration 0 the PNL of a yield rise is 0, not strictly negative. -/
theorem calculatePNL_zero_duration_cex :
    ¬ (calculatePNL 0 1 0 1 < 0) := by
  norm_num [calculatePNL, calculateDV01, calculateModifiedDuration]

/-- C7 (amended): when the yield rises (y2 > y1 > -100, so both modified
durations are well defined and positive), a long position with positive
duration and positive face value has strictly negative PNL. -/
theorem calculatePNL_neg_of_yield_rise (y1 y2 d f : ℚ)
    (h100 : -100 < y1) (h12 : y1 < y2) (hd : 0 < d) (hf : 0 < f) :
    calculatePNL y1 y2 d f < 0 := by
  have h100' : (-100:ℚ) < y2 := lt_trans h100 h12
  have hD1 := calculateDV01_pos hf hd h100
  have hD2 := calculateDV01_pos hf hd h100'
  have hbps : 0 < (y2 - y1) * 100 := by nlinarith
  have havg : 0 < (calculateDV01 f d y1 + calculateDV01 f d y2) / 2 :=
    div_pos (by linarith) (by norm_num)
  rw [calculatePNL_unfold, neg_mul]
  exact neg_lt_zero.mpr (mul_pos havg hbps)

/-- Claim C7 amended-theorem witness: a 10bp rise from 4.05 on an 8-duration
$10M position loses money. -/
theorem calculatePNL_neg_of_yield_rise_witness :
    calculatePNL (405/100) (415/100) 8 10000000 < 0 :=
  calculatePNL_neg_of_yield_rise (405/100) (415/100) 8 10000000
    (by norm_num) (by norm_num) (by norm_num) (by norm_num)

/-- Claim C2 counterexample: at the spec's concrete scenario the code's PNL is
-333120000000/4334723 ≈ -76,849.20, which differs from the spec's worked
value -76,858.8 by ≈ 9.6 — far outside the claimed ±0.01 tolerance (and far
above double rounding error, so the exact-rational model is decisive). -/
theorem concrete_scenario_spec_values_cex :
    ¬ (|calculatePNL (405/100) (415/100) 8 10000000 - (-(768588/10))| ≤ 1/100) := by
  rw [calculatePNL_unfold]
  norm_num [calculateDV01, calculateModifiedDuration, abs_of_pos]

/-- C2 (amended): at the spec's concrete scenario the code produces
dv01Start = 16000000/2081 ≈ 7,688.61, dv01End = 16000000/2083 ≈ 7,681.23,
avgDv01 ≈ 7,684.92 and pnl = -333120000000/4334723 ≈ -76,849.20; each of
these decimal approximations is within ±0.01 of the exact value. -/
theorem concrete_scenario_values :
    calculateDV01 10000000 8 (405/100) = 16000000/2081 ∧
    calculateDV01 10000000 8 (415/100) = 16000000/2083 ∧
    calculatePNL (405/100) (415/100) 8 10000000 = -(333120000000/4334723) ∧
    |calculateDV01 10000000 8 (405/100) - 768861/100| ≤ 1/100 ∧
    |calculateDV01 10000000 8 (415/100) - 768123/100| ≤ 1/100 ∧
    |(calculateDV01 10000000 8 (405/100) + calculateDV01 10000000 8 (415/100)) / 2
        - 768492/100| ≤ 1/100 ∧
    |calculatePNL (405/100) (415/100) 8 10000000 - (-(7684920/100))| ≤ 1/100 := by
  rw [calculatePNL_unfold]
  norm_num [calculateDV01, calculateModifiedDuration, abs_of_pos]

/-- C3: evaluating the bear-steepener block at a pure parallel shift of
+10bp on both legs (2Y 4.00 → 4.10, 10Y 4.50 → 4.60).  The code computes
both legs with the long-position sign, so the "duration-neutral" trade
loses 800 on each leg and the total PNL is -1600, not ≈ 0. -/
theorem steepener_parallel_shift_not_neutral :
    steepenerTotalPnl (41/10) (46/10) 4 (45/10) = -1600 ∧
    pnl_10Y_leg 10 = -800 ∧ pnl_2Y_leg 10 = -800 ∧ long2YNotional = 800000000/19 := by
  norm_num [steepenerTotalPnl, pnl_10Y_leg, pnl_2Y_leg, dv01_2Y, dv01_10Y, long2YNotional]

/-- C4: `getPNL` returns exactly 0 when `ratesData`, the overlay, or
`ratesData.yield_curve` is missing, when the selected maturity is not found
in the curve, or when the overlay has no entry for it; in every remaining
case it returns the `calculatePNL` estimate for the found curve entry — so
the listed missing-data cases are the only non-normal conditions, and the
function is total (never raises). -/
theorem getPNL_missing_data_semantics (curve : List CurveEntry) (iy : Overlay) (m : String) :
    (∀ o : Option Overlay, getPNL none o m = 0) ∧
    (∀ r : Option RatesData, getPNL r none m = 0) ∧
    getPNL (some ⟨none⟩) (some iy) m = 0 ∧
    (curve.find? (fun item => item.maturity == m) = none →
      getPNL (some ⟨some curve⟩) (some iy) m = 0) ∧
    (iy m = none → getPNL (some ⟨some curve⟩) (some iy) m = 0) ∧
    (∀ (e : CurveEntry) (y : ℚ),
      curve.find? (fun item => item.maturity == m) = some e → iy m = some y →
      getPNL (some ⟨some curve⟩) (some iy) m =
        calculatePNL e.yield y (getMacaulayDuration m) 10000000) := by
  refine ⟨fun o => rfl, fun r => ?_, rfl, fun hfind => ?_, fun hiy => ?_,
    fun e y hfind hiy => ?_⟩
  · cases r <;> rfl
  · simp [getPNL, hfind]
  · cases hfind : curve.find? (fun item => item.maturity == m) with
    | none => simp [getPNL, hfind]
    | some e => simp [getPNL, hfind, hiy]
  · simp [getPNL, hfind, hiy]

/-- Claim C4 witness: the spec's missing-maturity scenario (curve has `30Y`,
overlay lacks it) returns 0, and a fully-present scenario returns the
`calculatePNL` value. -/
theorem getPNL_missing_data_semantics_witness :
    getPNL (some ⟨some [⟨"30Y", 44/10⟩]⟩) (some (fun _ => none)) "30Y" = 0 ∧
    getPNL (some ⟨some [⟨"30Y", 44/10⟩]⟩)
        (some (fun key => if key = "30Y" then some (45/10) else none)) "30Y" =
      calculatePNL (44/10) (45/10) (getMacaulayDuration "30Y") 10000000 :=
  ⟨(getPNL_missing_data_semantics [⟨"30Y", 44/10⟩] (fun _ => none) "30Y").2.2.2.2.1 rfl,
   (getPNL_missing_data_semantics [⟨"30Y", 44/10⟩]
       (fun key => if key = "30Y" then some (45/10) else none) "30Y").2.2.2.2.2
     ⟨"30Y", 44/10⟩ (45/10) rfl rfl⟩

/-- A single calculator operation never changes `ratesData` (shared helper). -/
lemma applyOp_ratesData (s : AppState) (op : Op) :
    (applyOp s op).ratesData = s.ratesData := by
  cases op with
  | yieldChange m y => rfl
  | reset =>
    rcases s with ⟨rd, iy⟩
    rcases rd with _ | ⟨yc⟩
    · rfl
    · rcases yc with _ | c <;> rfl

/-- C8: no sequence of drag/reset operations ever mutates the fetched
`ratesData` (hence every curve entry is unchanged), and a drag writes only
the overlay entry of the dragged maturity; `getPNL` is a pure function of
the state and writes nothing by construction. -/
theorem curve_never_mutated :
    (∀ (s : AppState) (ops : List Op), (applyOps s ops).ratesData = s.ratesData) ∧
    (∀ (o : Overlay) (m : String) (y : ℚ) (key : String), key ≠ m →
      overlayInsert o m y key = o key) := by
  constructor
  · intro s ops
    induction ops generalizing s with
    | nil => rfl
    | cons op rest ih =>
      have h : applyOps s (op :: rest) = applyOps (applyOp s op) rest := rfl
      rw [h, ih, applyOp_ratesData]
  · intro o m y key h
    simp [overlayInsert, h]

/-- Claim C8 witness: a drag followed by a reset leaves a concrete
`ratesData` unchanged, and a drag of `10Y` leaves the `2Y` entry unchanged. -/
theorem curve_never_mutated_witness :
    (applyOps ⟨some ⟨some [⟨"10Y", 405/100⟩]⟩, none⟩
        [Op.yieldChange "10Y" 5, Op.reset]).ratesData = some ⟨some [⟨"10Y", 405/100⟩]⟩ ∧
    overlayInsert (fun _ => none) "10Y" 5 "2Y" = none :=
  ⟨curve_never_mutated.1 ⟨some ⟨some [⟨"10Y", 405/100⟩]⟩, none⟩
      [Op.yieldChange "10Y" 5, Op.reset],
   curve_never_mutated.2 (fun _ => none) "10Y" 5 "2Y" (by decide)⟩

/-- The copy loop leaves a label untouched when no listed entry carries it
(shared helper). -/
lemma insertAll_of_not_mem (l : List CurveEntry) (o : Overlay) (m : String)
    (h : ∀ e ∈ l, e.maturity ≠ m) : insertAll o l m = o m := by
  induction l generalizing o with
  | nil => rfl
  | cons a t ih =>
    have ha : a.maturity ≠ m := h a (List.mem_cons_self a t)
    have step : insertAll o (a :: t) = insertAll (overlayInsert o a.maturity a.yield) t := rfl
    rw [step, ih _ (fun e he => h e (List.mem_cons_of_mem a he))]
    simp only [overlayInsert]
    rw [if_neg (Ne.symm ha)]

/-- The copy loop stores each listed entry's yield under its label, provided
the labels are distinct (shared helper). -/
lemma insertAll_of_mem (l : List CurveEntry) (o : Overlay) (e : CurveEntry)
    (he : e ∈ l) (hnd : (l.map (fun x => x.maturity)).Nodup) :
    insertAll o l e.maturity = some e.yield := by
  induction l generalizing o with
  | nil => cases he
  | cons a t ih =>
    have step : insertAll o (a :: t) = insertAll (overlayInsert o a.maturity a.yield) t := rfl
    rw [List.map_cons, List.nodup_cons] at hnd
    rcases List.mem_cons.mp he with rfl | het
    · rw [step, insertAll_of_not_mem t _ e.maturity ?_]
      · simp [overlayInsert]
      · intro x hx hxm
        exact hnd.1 (hxm ▸ List.mem_map_of_mem (fun x => x.maturity) hx)
    · exact step ▸ ih _ het hnd.2

/-- Claim C9 counterexample: a maturity label that does not end in `Y`
(here `3M`) is present in the curve, yet after a reset the overlay has no
entry for it at all — the claimed copy of every curve label fails. -/
theorem overlay_reset_nonyearly_cex :
    (applyOp ⟨some ⟨some [⟨"3M", 4⟩]⟩, none⟩ Op.reset).interactiveYields
        = some (buildYields [⟨"3M", 4⟩]) ∧
    buildYields [⟨"3M", 4⟩] "3M" = none ∧
    buildYields [⟨"3M", 4⟩] "3M" ≠ some 4 := ⟨rfl, rfl, by decide⟩

/-- C9 (amended): the initialization overlay equals the reset overlay (the
initialization merely adds a redundant truthiness test), a reset always sets
the overlay to `buildYields` of the fetched curve regardless of the overlay
state reached before it, and — provided the curve's labels are distinct —
the resulting overlay maps every maturity label that ends in `Y` to that
maturity's original yield.  Labels not ending in `Y` are excluded by the
"only yearly maturities" filter. -/
theorem overlay_init_reset_copies_yearly (curve : List CurveEntry)
    (hnd : (curve.map (fun e => e.maturity)).Nodup) :
    initYields curve = buildYields curve ∧
    (∀ iy : Option Overlay,
      (applyOp ⟨some ⟨some curve⟩, iy⟩ Op.reset).interactiveYields
        = some (buildYields curve)) ∧
    (∀ e ∈ curve, endsWithY e.maturity = true →
      buildYields curve e.maturity = some e.yield) := by
  refine ⟨?_, fun iy => rfl, ?_⟩
  · have hfil : curve.filter (fun item => !(item.maturity == "") && endsWithY item.maturity)
        = curve.filter (fun item => endsWithY item.maturity) := by
      apply List.filter_congr
      intro e he
      cases hE : endsWithY e.maturity with
      | false => simp [hE]
      | true =>
        have hne : (e.maturity == "") = false := by
          cases hEmpty : (e.maturity == "") with
          | false => rfl
          | true =>
            have h0 : e.maturity = "" := by simpa using hEmpty
            rw [h0] at hE
            exact absurd hE (by decide)
        simp [hE, hne]
    unfold initYields buildYields
    rw [hfil]
  · intro e he hy
    unfold buildYields
    apply insertAll_of_mem
    · exact List.mem_filter.mpr ⟨he, hy⟩
    · exact List.Nodup.sublist
        (List.Sublist.map _ (List.filter_sublist curve)) hnd

/-- Claim C9 amended-theorem witness on a two-point curve: after reset the
overlay maps `10Y` to its original yield. -/
theorem overlay_init_reset_copies_yearly_witness :
    (([⟨"2Y", 3⟩, ⟨"10Y", 4⟩] : List CurveEntry).map (fun e => e.maturity)).Nodup ∧
    buildYields [⟨"2Y", 3⟩, ⟨"10Y", 4⟩] "10Y" = some 4 :=
  ⟨by decide,
   (overlay_init_reset_copies_yearly [⟨"2Y", 3⟩, ⟨"10Y", 4⟩] (by decide)).2.2
     ⟨"10Y", 4⟩ (List.mem_cons_of_mem _ (List.mem_cons_self _ _)) (by decide)⟩

/-- C10: `getMacaulayDuration` returns the six tabulated constants and
defaults to 8 on every other label; consequently `getPNL` on a maturity
present in curve and overlay but absent from the table computes the
`calculatePNL` estimate with duration 8 rather than treating the maturity
as missing data. -/
theorem getMacaulayDuration_table_and_default :
    (getMacaulayDuration "1Y" = 1.0 ∧ getMacaulayDuration "2Y" = 1.9 ∧
     getMacaulayDuration "5Y" = 4.5 ∧ getMacaulayDuration "7Y" = 6.2 ∧
     getMacaulayDuration "10Y" = 8.0 ∧ getMacaulayDuration "30Y" = 18.0) ∧
    (∀ m : String, m ∉ (["1Y", "2Y", "5Y", "7Y", "10Y", "30Y"] : List String) →
      getMacaulayDuration m = 8) ∧
    (∀ (curve : List CurveEntry) (iy : Overlay) (m : String) (e : CurveEntry) (y : ℚ),
      m ∉ (["1Y", "2Y", "5Y", "7Y", "10Y", "30Y"] : List String) →
      curve.find? (fun item => item.maturity == m) = some e → iy m = some y →
      getPNL (some ⟨some curve⟩) (some iy) m = calculatePNL e.yield y 8 10000000) := by
  have hdef : ∀ m : String, m ∉ (["1Y", "2Y", "5Y", "7Y", "10Y", "30Y"] : List String) →
      getMacaulayDuration m = 8 := by
    intro m hm
    simp only [List.mem_cons, not_or] at hm
    obtain ⟨h1, h2, h3, h4, h5, h6, -⟩ := hm
    have h8 : getMacaulayDuration m = 8.0 := by
      simp [getMacaulayDuration, h1, h2, h3, h4, h5, h6]
    rw [h8]
    norm_num
  refine ⟨⟨rfl, rfl, rfl, rfl, rfl, rfl⟩, hdef, fun curve iy m e y hm hfind hiy => ?_⟩
  simp [getPNL, hfind, hiy, hdef m hm]

/-- Claim C10 witness: for the label `3Y` (absent from the table, present in
a concrete curve and overlay) `getPNL` computes a PNL with duration 8. -/
theorem getMacaulayDuration_table_and_default_witness :
    getPNL (some ⟨some [⟨"3Y", 4⟩]⟩)
        (some (fun key => if key = "3Y" then some 5 else none)) "3Y" =
      calculatePNL 4 5 8 10000000 :=
  getMacaulayDuration_table_and_default.2.2 [⟨"3Y", 4⟩]
    (fun key => if key = "3Y" then some 5 else none) "3Y" ⟨"3Y", 4⟩ 5
    (by decide) rfl rfl

end RatesDashboard
